import Mathlib

/-!
Shallow embedding of the asynchronous reader-writer lock in
`src/libkernel/src/sync/rwlock.rs` of the `moss` repository.

The lock state is an `AtomicI32` read and written sequentially by each
operation; we model it as an `Int`.  A `Waker` is modelled as a task
identifier (`Nat`); `Waker.will_wake` compares identifiers.  The two
waiter queues (`VecDeque<Waker>`) are lists, front at the head.  An
operation that reaches `unreachable!` in the source returns `none`;
operations that cannot panic still return `some` so all four lock
operations share the same panic-as-`none` convention.  Wakers woken by a
release are returned as a list, in the order the source invokes `wake()`.
-/

/-- A task wake handle; `core::task::Waker` identified by its task. -/
abbrev Waker := Nat

/-- Model of `Waker::will_wake`: two handles wake the same task iff they
are the same identifier. -/
def Waker.will_wake (w other : Waker) : Bool := w == other

/-- Result of one `poll` call, `core::task::Poll`. -/
inductive Poll (α : Type) where
  | Ready : α → Poll α
  | Pending : Poll α
deriving DecidableEq, Repr

/-- The `Rwlock<T>` structure: `RwlockState` (lock_state, the two waiter
queues, the fairness flag) together with the protected `data`. -/
structure Rwlock (T : Type) where
  lock_state : Int
  read_waiters : List Waker
  write_waiters : List Waker
  last_woken_was_writer : Bool
  data : T
deriving DecidableEq, Repr

namespace Rwlock

/-- `Rwlock::new`: state 0, empty queues, fairness flag `false`. -/
def new {T : Type} (data : T) : Rwlock T :=
  { lock_state := 0
    read_waiters := []
    write_waiters := []
    last_woken_was_writer := false
    data := data }

/-- `Rwlock::into_inner`: consume the lock, returning the protected data. -/
def into_inner {T : Type} (l : Rwlock T) : T := l.data

end Rwlock

/-- `RwlockReadGuardFuture::poll`.  Matches on the loaded `lock_state`:
`0..` does `fetch_add(1)` and is `Ready`; `-1` registers the waker in
`read_waiters` unless an entry already `will_wake` the same task, and is
`Pending`; any other value hits `unreachable!` (`none`). -/
def readGuardFuture_poll {T : Type} (l : Rwlock T) (waker : Waker) :
    Option (Poll Unit × Rwlock T) :=
  if 0 ≤ l.lock_state then
    some (Poll.Ready (), { l with lock_state := l.lock_state + 1 })
  else if l.lock_state = -1 then
    some (Poll.Pending,
      if l.read_waiters.all (fun w => !w.will_wake waker) then
        { l with read_waiters := l.read_waiters ++ [waker] }
      else l)
  else none

/-- `Drop for AsyncRwlockReadGuard`.  Matches on the loaded `lock_state`:
`2..` does `fetch_sub(1)`; `1` stores 0 and pops (and wakes) the front
write waiter if any; any other value hits `unreachable!` (`none`).
Returns the new lock and the list of woken wakers. -/
def readGuard_drop {T : Type} (l : Rwlock T) :
    Option (Rwlock T × List Waker) :=
  if 2 ≤ l.lock_state then
    some ({ l with lock_state := l.lock_state - 1 }, [])
  else if l.lock_state = 1 then
    match l.write_waiters with
    | [] => some ({ l with lock_state := 0 }, [])
    | w :: rest => some ({ l with lock_state := 0, write_waiters := rest }, [w])
  else none

/-- `RwlockWriteGuardFuture::poll`.  Matches on the loaded `lock_state`:
`0` stores `-1` and is `Ready`; the wildcard arm (every other value,
valid or not) registers the waker in `write_waiters` unless an entry
already `will_wake` the same task, and is `Pending`. -/
def writeGuardFuture_poll {T : Type} (l : Rwlock T) (waker : Waker) :
    Option (Poll Unit × Rwlock T) :=
  if l.lock_state = 0 then
    some (Poll.Ready (), { l with lock_state := -1 })
  else
    some (Poll.Pending,
      if l.write_waiters.all (fun w => !w.will_wake waker) then
        { l with write_waiters := l.write_waiters ++ [waker] }
      else l)

/-- `Drop for AsyncRwlockWriteGuard`.  Loads the fairness flag as
`was_writer`, stores its negation, stores `lock_state := 0`; then if
`(was_writer && !read_waiters.is_empty()) || write_waiters.is_empty()`
pops and wakes every read waiter, else pops and wakes the front write
waiter if any.  Returns the new lock and the list of woken wakers. -/
def writeGuard_drop {T : Type} (l : Rwlock T) : Rwlock T × List Waker :=
  let was_writer := l.last_woken_was_writer
  let l1 := { l with last_woken_was_writer := !was_writer, lock_state := (0 : Int) }
  if (was_writer && !l.read_waiters.isEmpty) || l.write_waiters.isEmpty then
    ({ l1 with read_waiters := [] }, l.read_waiters)
  else
    match l.write_waiters with
    | [] => (l1, [])
    | w :: rest => ({ l1 with write_waiters := rest }, [w])

/-- `DerefMut for AsyncRwlockWriteGuard` followed by an assignment: the
only way the protected value is mutated. -/
def writeGuard_set {T : Type} (l : Rwlock T) (v : T) : Rwlock T :=
  { l with data := v }

/-- One step of a pure-read workload, used to state the fairness-flag
frame property: apply a read poll or a read-guard drop (a panicking
`unreachable!` arm aborts, leaving the state as it was). -/
inductive ReadOp where
  | acquire : Waker → ReadOp
  | release : ReadOp
deriving DecidableEq, Repr

/-- Apply one `ReadOp` to the lock. -/
def applyReadOp {T : Type} (l : Rwlock T) (op : ReadOp) : Rwlock T :=
  match op with
  | .acquire wk =>
    match readGuardFuture_poll l wk with
    | some (_, l') => l'
    | none => l
  | .release =>
    match readGuard_drop l with
    | some (l', _) => l'
    | none => l

/-- Fine-grained atomic micro-operations on `lock_state`, used to model
the separate `load` / `fetch_add` / `store` calls the source's fast
paths issue (they are not one compare-and-swap). -/
def lockState_load {T : Type} (l : Rwlock T) : Int := l.lock_state

/-- Model of `AtomicI32::fetch_add` on `lock_state`. -/
def lockState_fetch_add {T : Type} (l : Rwlock T) (d : Int) : Rwlock T :=
  { l with lock_state := l.lock_state + d }

/-- Model of `AtomicI32::store` on `lock_state`. -/
def lockState_store {T : Type} (l : Rwlock T) (v : Int) : Rwlock T :=
  { l with lock_state := v }

/-- Helper: when the dedup scan `all (fun w => !w.will_wake waker)` fails,
the polling task's waker is already in the queue. -/
theorem mem_of_dedup_scan_false (ws : List Waker) (wk : Waker)
    (h : ws.all (fun w => !w.will_wake wk) = false) : wk ∈ ws := by
  by_contra hm
  have hall : ws.all (fun w => !w.will_wake wk) = true := by
    rw [List.all_eq_true]
    intro w hw
    have : w ≠ wk := fun he => hm (he ▸ hw)
    simpa [Waker.will_wake] using this
  rw [hall] at h
  simp at h

/-- Helper: after a `Pending` read poll, the polling waker is registered
in the read-waiter queue and nothing else changed. -/
theorem readPoll_pending_cases {T : Type} (l l' : Rwlock T) (wk : Waker)
    (h : readGuardFuture_poll l wk = some (Poll.Pending, l')) :
    l.lock_state = -1 ∧ wk ∈ l'.read_waiters ∧
      l'.lock_state = l.lock_state ∧ l'.write_waiters = l.write_waiters ∧
      l'.last_woken_was_writer = l.last_woken_was_writer ∧ l'.data = l.data := by
  unfold readGuardFuture_poll at h
  split_ifs at h with h0 h1 hd
  · simp at h
  · simp only [Option.some.injEq, Prod.mk.injEq, true_and] at h
    subst h
    exact ⟨h1, by simp, by simp, by simp, by simp, by simp⟩
  · simp only [Option.some.injEq, Prod.mk.injEq, true_and] at h
    subst h
    exact ⟨h1, mem_of_dedup_scan_false _ _ (Bool.eq_false_iff.mpr hd), rfl, rfl, rfl, rfl⟩

/-- C1: dropping a write guard sets the state to 0 and toggles the
fairness flag; with `was_writer` the flag's prior value, if
(`was_writer` and the read-waiter queue is non-empty) or the
write-waiter queue is empty, every read waiter is popped and woken;
otherwise exactly the front write waiter is popped and woken. -/
theorem writeGuard_drop_spec {T : Type} (l : Rwlock T) :
    ((writeGuard_drop l).1.lock_state = 0 ∧
      (writeGuard_drop l).1.last_woken_was_writer = !l.last_woken_was_writer) ∧
    (((l.last_woken_was_writer && !l.read_waiters.isEmpty) || l.write_waiters.isEmpty) = true →
      (writeGuard_drop l).2 = l.read_waiters ∧
      (writeGuard_drop l).1.read_waiters = [] ∧
      (writeGuard_drop l).1.write_waiters = l.write_waiters) ∧
    (((l.last_woken_was_writer && !l.read_waiters.isEmpty) || l.write_waiters.isEmpty) = false →
      (writeGuard_drop l).2 = l.write_waiters.take 1 ∧
      (writeGuard_drop l).1.write_waiters = l.write_waiters.drop 1 ∧
      (writeGuard_drop l).1.read_waiters = l.read_waiters) := by
  obtain ⟨s, rws, wws, flag, d⟩ := l
  cases wws with
  | nil => simp [writeGuard_drop]
  | cons w rest =>
    cases hb : (flag && !(List.isEmpty rws)) with
    | true => simp [writeGuard_drop, hb]
    | false => simp [writeGuard_drop, hb]

/-- Witness for C1 at concrete inputs covering both branches. -/
theorem writeGuard_drop_spec_witness :
    (writeGuard_drop (⟨-1, [3], [4], true, 0⟩ : Rwlock Nat)).2 = [3] ∧
    (writeGuard_drop (⟨-1, [], [4, 8], false, 0⟩ : Rwlock Nat)).2 = [4] :=
  ⟨((writeGuard_drop_spec (⟨-1, [3], [4], true, 0⟩ : Rwlock Nat)).2.1 (by decide)).1,
   ((writeGuard_drop_spec (⟨-1, [], [4, 8], false, 0⟩ : Rwlock Nat)).2.2 (by decide)).1⟩

/-- C2: with state ≥ 0 a read poll succeeds immediately, incrementing the
state by one, whatever the write-waiter queue holds; a read poll reports
`Pending` (registering the waker in the read-waiter queue) only when the
state is -1. -/
theorem readGuardFuture_poll_spec {T : Type} (l : Rwlock T) (wk : Waker) :
    (0 ≤ l.lock_state →
      readGuardFuture_poll l wk =
        some (Poll.Ready (), { l with lock_state := l.lock_state + 1 })) ∧
    (∀ l', readGuardFuture_poll l wk = some (Poll.Pending, l') →
      l.lock_state = -1 ∧ wk ∈ l'.read_waiters ∧ l'.lock_state = l.lock_state ∧
      l'.write_waiters = l.write_waiters) := by
  constructor
  · intro h
    simp [readGuardFuture_poll, h]
  · intro l' h
    obtain ⟨h1, h2, h3, h4, -⟩ := readPoll_pending_cases l l' wk h
    exact ⟨h1, h2, h3, h4⟩

/-- Witness for C2 at concrete inputs covering both conjuncts. -/
theorem readGuardFuture_poll_spec_witness :
    readGuardFuture_poll (⟨2, [], [9], false, 0⟩ : Rwlock Nat) 5 =
      some (Poll.Ready (), ⟨3, [], [9], false, 0⟩) ∧
    (5 : Waker) ∈ (⟨-1, [5], [], false, 0⟩ : Rwlock Nat).read_waiters :=
  ⟨(readGuardFuture_poll_spec (⟨2, [], [9], false, 0⟩ : Rwlock Nat) 5).1 (by decide),
   ((readGuardFuture_poll_spec (⟨-1, [], [], false, 0⟩ : Rwlock Nat) 5).2
      ⟨-1, [5], [], false, 0⟩ (by decide)).2.1⟩

/-- C3: a write poll succeeds exactly when the state is 0, storing -1;
for any other observed state it registers the waker in the write-waiter
queue and reports `Pending`. -/
theorem writeGuardFuture_poll_spec {T : Type} (l : Rwlock T) (wk : Waker) :
    (l.lock_state = 0 →
      writeGuardFuture_poll l wk = some (Poll.Ready (), { l with lock_state := -1 })) ∧
    (l.lock_state ≠ 0 →
      ∃ l', writeGuardFuture_poll l wk = some (Poll.Pending, l') ∧
        wk ∈ l'.write_waiters ∧ l'.lock_state = l.lock_state ∧
        l'.read_waiters = l.read_waiters) ∧
    (∀ g l', writeGuardFuture_poll l wk = some (Poll.Ready g, l') → l.lock_state = 0) := by
  refine ⟨fun h => by simp [writeGuardFuture_poll, h], fun h => ?_, fun g l' h => ?_⟩
  · cases hd : l.write_waiters.all (fun w => !w.will_wake wk) with
    | false =>
      exact ⟨l, by simp [writeGuardFuture_poll, h, hd],
        mem_of_dedup_scan_false _ _ hd, rfl, rfl⟩
    | true =>
      exact ⟨{ l with write_waiters := l.write_waiters ++ [wk] },
        by simp [writeGuardFuture_poll, h, hd], by simp, rfl, rfl⟩
  · by_contra hs
    simp [writeGuardFuture_poll, hs] at h

/-- Witness for C3 at concrete inputs covering all three conjuncts. -/
theorem writeGuardFuture_poll_spec_witness :
    writeGuardFuture_poll (⟨0, [2], [], true, 0⟩ : Rwlock Nat) 5 =
      some (Poll.Ready (), ⟨-1, [2], [], true, 0⟩) ∧
    (∃ l', writeGuardFuture_poll (⟨3, [], [], false, 0⟩ : Rwlock Nat) 5 =
        some (Poll.Pending, l') ∧ (5 : Waker) ∈ l'.write_waiters ∧
        l'.lock_state = 3 ∧ l'.read_waiters = []) ∧
    (⟨0, [], [], false, 0⟩ : Rwlock Nat).lock_state = 0 :=
  ⟨(writeGuardFuture_poll_spec (⟨0, [2], [], true, 0⟩ : Rwlock Nat) 5).1 (by decide),
   (writeGuardFuture_poll_spec (⟨3, [], [], false, 0⟩ : Rwlock Nat) 5).2.1 (by decide),
   (writeGuardFuture_poll_spec (⟨0, [], [], false, 0⟩ : Rwlock Nat) 5).2.2 ()
     ⟨-1, [], [], false, 0⟩ (by decide)⟩

/-- C4: dropping a read guard at state ≥ 2 just decrements; at state 1 it
stores 0 and pops-and-wakes the front write waiter when one exists; the
read-waiter queue is never touched and only the front write waiter can
be woken. -/
theorem readGuard_drop_spec {T : Type} (l : Rwlock T) :
    (2 ≤ l.lock_state →
      readGuard_drop l = some ({ l with lock_state := l.lock_state - 1 }, [])) ∧
    (l.lock_state = 1 →
      readGuard_drop l =
        some ({ l with lock_state := 0, write_waiters := l.write_waiters.drop 1 },
          l.write_waiters.take 1)) ∧
    (∀ l' ws, readGuard_drop l = some (l', ws) →
      l'.read_waiters = l.read_waiters ∧ ∀ w ∈ ws, l.write_waiters.head? = some w) := by
  refine ⟨fun h => by simp [readGuard_drop, h], fun h => ?_, fun l' ws h => ?_⟩
  · have h2 : ¬ (2 ≤ l.lock_state) := by omega
    cases hw : l.write_waiters with
    | nil => simp [readGuard_drop, h, h2, hw]
    | cons w rest => simp [readGuard_drop, h, h2, hw]
  · unfold readGuard_drop at h
    split_ifs at h with h2 h1
    · obtain ⟨rfl, rfl⟩ := Prod.mk.injEq .. ▸ Option.some.injEq .. ▸ h
      simp
    · cases hw : l.write_waiters with
      | nil =>
        rw [hw] at h
        obtain ⟨rfl, rfl⟩ := Prod.mk.injEq .. ▸ Option.some.injEq .. ▸ h
        simp
      | cons w rest =>
        rw [hw] at h
        obtain ⟨rfl, rfl⟩ := Prod.mk.injEq .. ▸ Option.some.injEq .. ▸ h
        simp [hw]

/-- Witness for C4 at concrete inputs covering all three conjuncts. -/
theorem readGuard_drop_spec_witness :
    readGuard_drop (⟨2, [7], [4], false, 0⟩ : Rwlock Nat) =
      some (⟨1, [7], [4], false, 0⟩, []) ∧
    readGuard_drop (⟨1, [7], [4, 8], false, 0⟩ : Rwlock Nat) =
      some (⟨0, [7], [8], false, 0⟩, [4]) ∧
    ((⟨0, [7], [8], false, 0⟩ : Rwlock Nat).read_waiters = [7] ∧
      ∀ w ∈ [(4 : Waker)], ([4, 8] : List Waker).head? = some w) :=
  ⟨(readGuard_drop_spec (⟨2, [7], [4], false, 0⟩ : Rwlock Nat)).1 (by decide),
   (readGuard_drop_spec (⟨1, [7], [4, 8], false, 0⟩ : Rwlock Nat)).2.1 (by decide),
   (readGuard_drop_spec (⟨1, [7], [4, 8], false, 0⟩ : Rwlock Nat)).2.2
     ⟨0, [7], [8], false, 0⟩ [4] (by decide)⟩

/-- Helper: a waker already in the queue makes the dedup scan fail, so
insertion is skipped. -/
theorem dedup_scan_false_of_mem (ws : List Waker) (wk : Waker) (hm : wk ∈ ws) :
    ws.all (fun w => !w.will_wake wk) = false := by
  cases hall : ws.all (fun w => !w.will_wake wk) with
  | false => rfl
  | true =>
    have := List.all_eq_true.mp hall wk hm
    simp [Waker.will_wake] at this

/-- Helper: a read poll never changes the fairness flag, the data or the
write-waiter queue. -/
theorem readPoll_frame {T : Type} (l l' : Rwlock T) (wk : Waker) (r : Poll Unit)
    (h : readGuardFuture_poll l wk = some (r, l')) :
    l'.last_woken_was_writer = l.last_woken_was_writer ∧ l'.data = l.data ∧
      l'.write_waiters = l.write_waiters := by
  unfold readGuardFuture_poll at h
  split_ifs at h with h0 h1 hd <;>
    (simp only [Option.some.injEq, Prod.mk.injEq] at h
     obtain ⟨-, rfl⟩ := h
     exact ⟨rfl, rfl, rfl⟩)

/-- Helper: a write poll never changes the fairness flag, the data or the
read-waiter queue. -/
theorem writePoll_frame {T : Type} (l l' : Rwlock T) (wk : Waker) (r : Poll Unit)
    (h : writeGuardFuture_poll l wk = some (r, l')) :
    l'.last_woken_was_writer = l.last_woken_was_writer ∧ l'.data = l.data ∧
      l'.read_waiters = l.read_waiters := by
  unfold writeGuardFuture_poll at h
  split_ifs at h with h0 hd <;>
    (simp only [Option.some.injEq, Prod.mk.injEq] at h
     obtain ⟨-, rfl⟩ := h
     exact ⟨rfl, rfl, rfl⟩)

/-- Helper: a read-guard drop never changes the fairness flag, the data
or the read-waiter queue. -/
theorem readDrop_frame {T : Type} (l l' : Rwlock T) (ws : List Waker)
    (h : readGuard_drop l = some (l', ws)) :
    l'.last_woken_was_writer = l.last_woken_was_writer ∧ l'.data = l.data ∧
      l'.read_waiters = l.read_waiters := by
  obtain ⟨s, rws, wws, flag, d⟩ := l
  unfold readGuard_drop at h
  split_ifs at h with h2 h1
  · simp only [Option.some.injEq, Prod.mk.injEq] at h
    obtain ⟨rfl, -⟩ := h
    exact ⟨rfl, rfl, rfl⟩
  · cases wws with
    | nil =>
      simp only [Option.some.injEq, Prod.mk.injEq] at h
      obtain ⟨rfl, -⟩ := h
      exact ⟨rfl, rfl, rfl⟩
    | cons w rest =>
      simp only [Option.some.injEq, Prod.mk.injEq] at h
      obtain ⟨rfl, -⟩ := h
      exact ⟨rfl, rfl, rfl⟩

/-- Helper: a write-guard drop toggles the fairness flag, zeroes the
state and keeps the data. -/
theorem writeDrop_frame {T : Type} (l : Rwlock T) :
    (writeGuard_drop l).1.last_woken_was_writer = !l.last_woken_was_writer ∧
      (writeGuard_drop l).1.lock_state = 0 ∧ (writeGuard_drop l).1.data = l.data := by
  obtain ⟨s, rws, wws, flag, d⟩ := l
  cases wws with
  | nil => simp [writeGuard_drop]
  | cons w rest =>
    cases hb : (flag && !(List.isEmpty rws)) with
    | true => simp [writeGuard_drop, hb]
    | false => simp [writeGuard_drop, hb]

/-- Helper: a pending write poll means the state was non-zero, the waker
got registered and nothing else changed. -/
theorem writePoll_pending_cases {T : Type} (l l' : Rwlock T) (wk : Waker)
    (h : writeGuardFuture_poll l wk = some (Poll.Pending, l')) :
    l.lock_state ≠ 0 ∧ wk ∈ l'.write_waiters ∧ l'.lock_state = l.lock_state := by
  unfold writeGuardFuture_poll at h
  split_ifs at h with h0 hd
  · simp at h
  · simp only [Option.some.injEq, Prod.mk.injEq, true_and] at h
    subst h
    exact ⟨h0, by simp, rfl⟩
  · simp only [Option.some.injEq, Prod.mk.injEq, true_and] at h
    subst h
    exact ⟨h0, mem_of_dedup_scan_false _ _ (Bool.eq_false_iff.mpr hd), rfl⟩

/-- Helper: a read poll at state -1 with the waker already queued skips
insertion and returns the lock unchanged. -/
theorem readPoll_skip {T : Type} (l : Rwlock T) (wk : Waker)
    (h1 : l.lock_state = -1) (hm : wk ∈ l.read_waiters) :
    readGuardFuture_poll l wk = some (Poll.Pending, l) := by
  have h0 : ¬ (0 ≤ l.lock_state) := by omega
  simp [readGuardFuture_poll, h0, h1, dedup_scan_false_of_mem _ _ hm]

/-- Helper: a write poll at non-zero state with the waker already queued
skips insertion and returns the lock unchanged. -/
theorem writePoll_skip {T : Type} (l : Rwlock T) (wk : Waker)
    (h0 : l.lock_state ≠ 0) (hm : wk ∈ l.write_waiters) :
    writeGuardFuture_poll l wk = some (Poll.Pending, l) := by
  simp [writeGuardFuture_poll, h0, dedup_scan_false_of_mem _ _ hm]

/-- C5 counterexample: at the invalid state -2 the write poll does not
abort — its wildcard arm registers the waker and reports `Pending`. -/
theorem writePoll_invalid_state_counterexample :
    writeGuardFuture_poll (⟨-2, [], [], false, 0⟩ : Rwlock Nat) 7 ≠ none ∧
    writeGuardFuture_poll (⟨-2, [], [], false, 0⟩ : Rwlock Nat) 7 =
      some (Poll.Pending, ⟨-2, [], [7], false, 0⟩) := by
  decide

/-- C5 (amended): on a state outside the valid set, the read poll and the
read-guard drop abort (`unreachable!`); the write poll instead treats it
like any other non-zero state, registering the waker and reporting
`Pending` (the write-guard drop never inspects the state at all). -/
theorem invalid_state_handling_spec {T : Type} (l : Rwlock T) (wk : Waker)
    (h : l.lock_state < -1) :
    readGuardFuture_poll l wk = none ∧
    readGuard_drop l = none ∧
    ∃ l', writeGuardFuture_poll l wk = some (Poll.Pending, l') := by
  have h0 : ¬ (0 ≤ l.lock_state) := by omega
  have h1 : l.lock_state ≠ -1 := by omega
  have h2 : ¬ (2 ≤ l.lock_state) := by omega
  have h3 : l.lock_state ≠ 1 := by omega
  have h4 : l.lock_state ≠ 0 := by omega
  refine ⟨by simp [readGuardFuture_poll, h0, h1], by simp [readGuard_drop, h2, h3], ?_⟩
  cases hd : l.write_waiters.all (fun w => !w.will_wake wk) with
  | false => exact ⟨l, by simp [writeGuardFuture_poll, h4, hd]⟩
  | true => exact ⟨{ l with write_waiters := l.write_waiters ++ [wk] },
      by simp [writeGuardFuture_poll, h4, hd]⟩

/-- Witness for the amended C5 at the concrete invalid state -2. -/
theorem invalid_state_handling_spec_witness :
    readGuardFuture_poll (⟨-2, [], [], false, 0⟩ : Rwlock Nat) 9 = none ∧
    readGuard_drop (⟨-2, [], [], false, 0⟩ : Rwlock Nat) = none ∧
    ∃ l', writeGuardFuture_poll (⟨-2, [], [], false, 0⟩ : Rwlock Nat) 9 =
      some (Poll.Pending, l') :=
  invalid_state_handling_spec (⟨-2, [], [], false, 0⟩ : Rwlock Nat) 9 (by decide)

/-- C6: waiter-queue registration is idempotent per waker — a second poll
of a still-pending future with the same waker leaves the lock unchanged,
because the queue is scanned for an entry waking the same task and
insertion is skipped when one is found. -/
theorem poll_dedup_idempotent {T : Type} (l l' : Rwlock T) (wk : Waker) :
    (readGuardFuture_poll l wk = some (Poll.Pending, l') →
      readGuardFuture_poll l' wk = some (Poll.Pending, l')) ∧
    (writeGuardFuture_poll l wk = some (Poll.Pending, l') →
      writeGuardFuture_poll l' wk = some (Poll.Pending, l')) ∧
    (l.lock_state = -1 → wk ∈ l.read_waiters →
      readGuardFuture_poll l wk = some (Poll.Pending, l)) ∧
    (l.lock_state ≠ 0 → wk ∈ l.write_waiters →
      writeGuardFuture_poll l wk = some (Poll.Pending, l)) := by
  refine ⟨fun h => ?_, fun h => ?_, readPoll_skip l wk, writePoll_skip l wk⟩
  · obtain ⟨h1, hm, hs, -, -, -⟩ := readPoll_pending_cases l l' wk h
    exact readPoll_skip l' wk (by omega) hm
  · obtain ⟨h0, hm, hs⟩ := writePoll_pending_cases l l' wk h
    exact writePoll_skip l' wk (by omega) hm

/-- Witness for C6 at concrete inputs covering all four conjuncts. -/
theorem poll_dedup_idempotent_witness :
    readGuardFuture_poll (⟨-1, [7], [], false, 0⟩ : Rwlock Nat) 7 =
      some (Poll.Pending, ⟨-1, [7], [], false, 0⟩) ∧
    writeGuardFuture_poll (⟨-1, [], [7], false, 0⟩ : Rwlock Nat) 7 =
      some (Poll.Pending, ⟨-1, [], [7], false, 0⟩) ∧
    readGuardFuture_poll (⟨-1, [3, 7], [], true, 0⟩ : Rwlock Nat) 7 =
      some (Poll.Pending, ⟨-1, [3, 7], [], true, 0⟩) ∧
    writeGuardFuture_poll (⟨2, [], [7, 4], true, 0⟩ : Rwlock Nat) 7 =
      some (Poll.Pending, ⟨2, [], [7, 4], true, 0⟩) :=
  ⟨(poll_dedup_idempotent (⟨-1, [], [], false, 0⟩ : Rwlock Nat)
      ⟨-1, [7], [], false, 0⟩ 7).1 (by decide),
   (poll_dedup_idempotent (⟨-1, [], [], false, 0⟩ : Rwlock Nat)
      ⟨-1, [], [7], false, 0⟩ 7).2.1 (by decide),
   (poll_dedup_idempotent (⟨-1, [3, 7], [], true, 0⟩ : Rwlock Nat)
      ⟨-1, [3, 7], [], true, 0⟩ 7).2.2.1 (by decide) (by decide),
   (poll_dedup_idempotent (⟨2, [], [7, 4], true, 0⟩ : Rwlock Nat)
      ⟨2, [], [7, 4], true, 0⟩ 7).2.2.2 (by decide) (by decide)⟩

/-- C7: with state 0 and both queues empty, polling the read (resp.
write) future succeeds at once and dropping the resulting guard returns
the state to 0 with both queues still empty. -/
theorem round_trip_no_contention {T : Type} (v : T) (b : Bool) (wk : Waker) :
    (∃ s1 s2 : Rwlock T,
      readGuardFuture_poll ⟨0, [], [], b, v⟩ wk = some (Poll.Ready (), s1) ∧
      readGuard_drop s1 = some (s2, []) ∧
      s2.lock_state = 0 ∧ s2.read_waiters = [] ∧ s2.write_waiters = []) ∧
    (∃ t1 t2 : Rwlock T,
      writeGuardFuture_poll ⟨0, [], [], b, v⟩ wk = some (Poll.Ready (), t1) ∧
      writeGuard_drop t1 = (t2, []) ∧
      t2.lock_state = 0 ∧ t2.read_waiters = [] ∧ t2.write_waiters = []) := by
  constructor
  · refine ⟨⟨1, [], [], b, v⟩, ⟨0, [], [], b, v⟩, ?_, ?_, rfl, rfl, rfl⟩
    · norm_num [readGuardFuture_poll]
    · norm_num [readGuard_drop]
  · refine ⟨⟨-1, [], [], b, v⟩, ⟨0, [], [], !b, v⟩, ?_, ?_, rfl, rfl, rfl⟩
    · norm_num [writeGuardFuture_poll]
    · norm_num [writeGuard_drop]

/-- C8: the fairness flag starts `false`, is toggled exactly once by each
write-guard drop, and is untouched by read polls, read-guard drops and
write polls, so a pure read workload of any length leaves it unchanged. -/
theorem fairness_flag_frame {T : Type} (v : T) (l : Rwlock T) (wk : Waker)
    (ops : List ReadOp) :
    (Rwlock.new v).last_woken_was_writer = false ∧
    (writeGuard_drop l).1.last_woken_was_writer = !l.last_woken_was_writer ∧
    (∀ r l', readGuardFuture_poll l wk = some (r, l') →
      l'.last_woken_was_writer = l.last_woken_was_writer) ∧
    (∀ l' ws, readGuard_drop l = some (l', ws) →
      l'.last_woken_was_writer = l.last_woken_was_writer) ∧
    (∀ r l', writeGuardFuture_poll l wk = some (r, l') →
      l'.last_woken_was_writer = l.last_woken_was_writer) ∧
    (∀ m : Rwlock T,
      (ops.foldl applyReadOp m).last_woken_was_writer = m.last_woken_was_writer) := by
  refine ⟨rfl, (writeDrop_frame l).1,
    fun r l' h => (readPoll_frame l l' wk r h).1,
    fun l' ws h => (readDrop_frame l l' ws h).1,
    fun r l' h => (writePoll_frame l l' wk r h).1,
    fun m => ?_⟩
  induction ops generalizing m with
  | nil => rfl
  | cons op rest ih =>
    rw [List.foldl_cons, ih]
    cases op with
    | acquire wk' =>
      simp only [applyReadOp]
      cases hp : readGuardFuture_poll m wk' with
      | none => rfl
      | some pr => exact (readPoll_frame m pr.2 wk' pr.1 hp).1
    | release =>
      simp only [applyReadOp]
      cases hp : readGuard_drop m with
      | none => rfl
      | some pr => exact (readDrop_frame m pr.1 pr.2 hp).1

/-- Witness for C8 at concrete inputs. -/
theorem fairness_flag_frame_witness :
    (⟨3, [], [], true, 0⟩ : Rwlock Nat).last_woken_was_writer =
      (⟨2, [], [], true, 0⟩ : Rwlock Nat).last_woken_was_writer :=
  (fairness_flag_frame (0 : Nat) (⟨2, [], [], true, 0⟩ : Rwlock Nat) 7 []).2.2.1
    (Poll.Ready ()) ⟨3, [], [], true, 0⟩ (by decide)

/-- C9: the read fast path is load-then-act, not one compare-and-swap —
from state 0 a reader's `load` observes 0 and passes the `0..` check;
before its deferred `fetch_add` runs, a writer's poll claims the lock
(state -1); the reader's `fetch_add` then executes anyway, leaving the
state at 0 while the write guard is live, so both sides of the race won
the same transition. -/
theorem read_fast_path_race :
    lockState_load (Rwlock.new (0 : Nat)) = 0 ∧
    0 ≤ lockState_load (Rwlock.new (0 : Nat)) ∧
    writeGuardFuture_poll (Rwlock.new (0 : Nat)) 7 =
      some (Poll.Ready (), lockState_store (Rwlock.new (0 : Nat)) (-1)) ∧
    (lockState_fetch_add (lockState_store (Rwlock.new (0 : Nat)) (-1)) 1).lock_state = 0 := by
  decide

/-- C10: no lock-management operation changes the protected data; only the
write guard's mutable dereference does, and `into_inner` returns exactly
the stored value. -/
theorem data_frame {T : Type} (l : Rwlock T) (wk : Waker) (v v' : T) :
    (∀ r l', readGuardFuture_poll l wk = some (r, l') → l'.data = l.data) ∧
    (∀ r l', writeGuardFuture_poll l wk = some (r, l') → l'.data = l.data) ∧
    (∀ l' ws, readGuard_drop l = some (l', ws) → l'.data = l.data) ∧
    (writeGuard_drop l).1.data = l.data ∧
    (writeGuard_set l v').data = v' ∧
    Rwlock.into_inner l = l.data ∧
    Rwlock.into_inner (Rwlock.new v) = v :=
  ⟨fun r l' h => (readPoll_frame l l' wk r h).2.1,
   fun r l' h => (writePoll_frame l l' wk r h).2.1,
   fun l' ws h => (readDrop_frame l l' ws h).2.1,
   (writeDrop_frame l).2.2, rfl, rfl, rfl⟩

/-- Witness for C10 at concrete inputs. -/
theorem data_frame_witness :
    (⟨3, [], [], true, 42⟩ : Rwlock Nat).data =
      (⟨2, [], [], true, 42⟩ : Rwlock Nat).data :=
  (data_frame (⟨2, [], [], true, 42⟩ : Rwlock Nat) 7 0 0).1
    (Poll.Ready ()) ⟨3, [], [], true, 42⟩ (by decide)
